import Mathlib

/-!
Verification development for the `lkcloud/errors` Go package: a shallow
embedding of the error-stack data type (`Err`, frames `Msg`), the code
registry, the composition operations (`New`, `Wrap`, `With`, `From`) and
the default rendering path, together with theorems settling the spec's
claims about them.

Modelling conventions:
- Go `int` values (codes, HTTP statuses) are Lean `Int`.
- Go `error` interface values are the inductive `GoErr`; a nil interface
  is `Option GoErr` at use sites that may receive nil.  Dynamic type
  assertions (`err.(*Err)`, `e.(Err)`, `e.(Msg)`) become matches on the
  corresponding constructors; pointer and value stacks are distinct
  constructors because Go type assertions distinguish them.
- `fmt.Sprintf` / `fmt.Errorf` (Go standard library, external to the
  repository) are modelled by `sprintf`: a verb following `%` consumes
  one pre-rendered argument string, a missing argument renders as
  `%!v(MISSING)`, left-over arguments append an `EXTRA` marker, and
  `%%` renders as `%`.
- Runtime call-site capture (`runtime.Caller`) is an opaque external
  capability; `getCaller` / `getTrace` return fixed empty data.  No claim
  depends on caller contents.
- Mutexes are dropped: the embedding is functional, and operations that
  mutate through a pointer receiver are modelled as functions returning
  the new frame list.
- A Go runtime fault (index out of range, nil dereference) is modelled
  by `Option`: `none` where the Go code would panic.
-/

/-- Call-site record captured at annotation time (Go `Call` implementing
the `Caller` interface): file, line, ok flag, program counter. -/
structure Caller where
  file : String
  line : Int
  ok : Bool
  pc : Int
deriving Repr, DecidableEq

/-- Modelled from the spec: call-site capture is an opaque runtime
capability ("locate current frame"); the embedding fixes it to a single
record with empty data, since no claim depends on caller contents. -/
def getCaller : Caller := ⟨"", 0, false, 0⟩

/-- Modelled from the spec: full call-chain capture (`getTrace`) is an
opaque runtime capability; fixed to the empty chain. -/
def getTrace : List Caller := []

/-- Core of the `fmt.Sprintf` model over the template's character list. -/
def runFmt : List Char → List String → String
  | '%' :: '%' :: cs, args => "%" ++ runFmt cs args
  | ['%'], [] => "%!(NOVERB)"
  | ['%'], args => "%!(NOVERB)" ++ "%!(EXTRA " ++ String.intercalate ", " args ++ ")"
  | '%' :: _ :: cs, a :: args => a ++ runFmt cs args
  | '%' :: c :: cs, [] => "%!" ++ c.toString ++ "(MISSING)" ++ runFmt cs []
  | c :: cs, args => c.toString ++ runFmt cs args
  | [], [] => ""
  | [], args => "%!(EXTRA " ++ String.intercalate ", " args ++ ")"

/-- Model of `fmt.Sprintf` with pre-rendered argument strings. -/
def sprintf (msg : String) (data : List String) : String :=
  runFmt msg.data data

/-- Go `error` interface values reachable in this package.
`foreign s` is any error outside the package with `Error() == s`
(including `fmt.Errorf` results); `msg` is a `Msg` frame value
(fields: underlying error `err` — `none` models a nil interface —,
`caller`, `code`, formatted message `msg`, root-only `trace`);
`stackPtr` is a `*Err` pointer (its `errs` slice) and `stackVal` a
plain `Err` value — kept distinct because Go type assertions
(`err.(*Err)` in `Wrap`/`From` versus `e.(Err)` in `With`)
distinguish the two dynamic types. -/
inductive GoErr : Type where
  | foreign (s : String)
  | msg (err : Option GoErr) (caller : Caller) (code : Int) (m : String) (trace : List Caller)
  | stackPtr (errs : List GoErr)
  | stackVal (errs : List GoErr)

mutual

/-- `Error()` of a Go error value.  For `Msg`: `Msg.Error → Msg.String`,
which is the message when the underlying error is nil and the underlying
error's `Error()` otherwise.  For `Err` (pointer or value): the last
frame's `Error()`, or `""` when the stack is empty. -/
def GoErr.errorStr : GoErr → String
  | .foreign s => s
  | .msg none _ _ m _ => m
  | .msg (some e) _ _ _ _ => e.errorStr
  | .stackPtr fs => lastErrorStr fs
  | .stackVal fs => lastErrorStr fs

/-- `Error()` of the last frame of a frame list, `""` when empty
(the body of Go's `Err.Error`). -/
def lastErrorStr : List GoErr → String
  | [] => ""
  | [f] => f.errorStr
  | _ :: rest => lastErrorStr rest

end

/-- `ErrMsg.Code()`: frames stored in a stack are always `Msg` values
(`Msg` is the only implementation of the `ErrMsg` interface in the
package), so the non-`msg` cases are unreachable defaults. -/
def GoErr.codeOf : GoErr → Int
  | .msg _ _ c _ _ => c
  | _ => 0

/-- `ErrMsg.Msg()`: the stored formatted message of a frame. -/
def GoErr.msgOf : GoErr → String
  | .msg _ _ _ m _ => m
  | _ => ""

/-- `ErrMsg.Caller()` of a frame. -/
def GoErr.callerOf : GoErr → Caller
  | .msg _ c _ _ _ => c
  | _ => getCaller

/-- ErrSuccess - 0: No error occurred. -/
def ErrSuccess : Int := 0

/-- ErrUnknown - 1: An unknown error occurred. -/
def ErrUnknown : Int := 1

/-- ErrFatal - 2: A fatal error occurred. -/
def ErrFatal : Int := 2

/-- ErrCodeNotFound - 3: Code not found. -/
def ErrCodeNotFound : Int := 3

/-- ErrDecodingFailed - 100. -/
def ErrDecodingFailed : Int := 100

/-- ErrDecodingJSON - 101. -/
def ErrDecodingJSON : Int := 101

/-- ErrDecodingToml - 102. -/
def ErrDecodingToml : Int := 102

/-- ErrDecodingYaml - 103. -/
def ErrDecodingYaml : Int := 103

/-- ErrEncodingFailed - 104. -/
def ErrEncodingFailed : Int := 104

/-- ErrEncodingJSON - 105. -/
def ErrEncodingJSON : Int := 105

/-- ErrEncodingToml - 106. -/
def ErrEncodingToml : Int := 106

/-- ErrEncodingYaml - 107. -/
def ErrEncodingYaml : Int := 107

/-- ErrInvalidJSON - 108 (not registered by `init`). -/
def ErrInvalidJSON : Int := 108

/-- ErrInvalidToml - 109 (not registered by `init`). -/
def ErrInvalidToml : Int := 109

/-- ErrInvalidYaml - 110 (not registered by `init`). -/
def ErrInvalidYaml : Int := 110

/-- ErrTypeConversionFailed - 111. -/
def ErrTypeConversionFailed : Int := 111

/-- Code metadata (`ErrCode`, the only `Coder` implementation):
external text `Ext`, HTTP status `HTTP` (0 meaning unset), internal
text `Int` (declared last so the `HTTP` field's type elaborates to
Lean's integers). -/
structure ErrCode where
  Ext : String
  HTTP : Int
  Int : String
deriving Repr, DecidableEq

/-- `ErrCode.Detail()`: the internal (log-facing) error text. -/
def ErrCode.Detail (c : ErrCode) : String := c.Int

/-- `ErrCode.String()`: the external (user-facing) error text. -/
def ErrCode.String (c : ErrCode) : String := c.Ext

/-- `ErrCode.HTTPStatus()`: the registered status, or 200 when unset.
The result type is inferred from the `HTTP` field (the name `Int` is
shadowed by the structure's `Int` field inside this namespace). -/
def ErrCode.HTTPStatus (c : ErrCode) :=
  if c.HTTP = 0 then 200 else c.HTTP

/-- The process-wide `Codes` map, modelled as an explicit lookup
function passed to every reader. -/
def Registry : Type := Int → Option ErrCode

/-- The registry as populated by the package's own `init`:
note codes 100, 104 and 108 through 110 are NOT registered there. -/
def initCodes : Registry := fun c =>
  if c = 0 then some { Ext := "ok", HTTP := 0, Int := "ok" }
  else if c = 1 then some { Ext := "an unknown error occurred", HTTP := 0, Int := "" }
  else if c = 2 then some { Ext := "a fatal error occurred", HTTP := 0, Int := "a fatal error occurred" }
  else if c = 3 then some { Ext := "code not found", HTTP := 0, Int := "code not found" }
  else if c = 101 then some { Ext := "JSON data could not be decoded", HTTP := 0, Int := "JSON data could not be decoded" }
  else if c = 102 then some { Ext := "TOML data could not be decoded", HTTP := 0, Int := "TOML data could not be decoded" }
  else if c = 103 then some { Ext := "YAML data could not be decoded", HTTP := 0, Int := "YAML data could not be decoded" }
  else if c = 105 then some { Ext := "JSON data could not be encoded", HTTP := 0, Int := "JSON data could not be encoded" }
  else if c = 106 then some { Ext := "TOML data could not be encoded", HTTP := 0, Int := "TOML data could not be encoded" }
  else if c = 107 then some { Ext := "YAML data could not be encoded", HTTP := 0, Int := "YAML data could not be encoded" }
  else if c = 111 then some { Ext := "data type conversion failed", HTTP := 0, Int := "data type conversion failed" }
  else none

/-- ConfigurationNotValid - 1000: the caller-registered code of the
test/example surface. -/
def ConfigurationNotValid : Int := 1000

/-- The registry after the example package's `init` additionally
registers `ConfigurationNotValid`. -/
def codesTest : Registry := fun c =>
  if c = 1000 then
    some { Ext := "Configuration not valid", HTTP := 500, Int := "the configuration is invalid" }
  else initCodes c

/-- The error heap (`Err`): the ordered frame list, root cause at index
0, most recent annotation last.  The `sync.Mutex` field is dropped from
the functional model. -/
structure Err where
  errs : List GoErr

/-- `Err.Push`: appends frames to the stack (variadic in Go). -/
def Err.Push (e : Err) (ms : List GoErr) : Err :=
  ⟨e.errs ++ ms⟩

/-- `Err.Len`: the size of the error stack. -/
def Err.Len (e : Err) : Nat :=
  e.errs.length

/-- `Err.Last`: Go reads `errs[len(errs)-1]` with no emptiness guard, so
on an empty stack the index is out of range; `none` models that fault. -/
def Err.Last? (e : Err) : Option GoErr :=
  e.errs.getLast?

/-- `Err.Code`: the most recent frame's code, `ErrUnknown` when the
stack is empty. -/
def Err.Code (e : Err) : Int :=
  match e.errs.getLast? with
  | some f => f.codeOf
  | none => ErrUnknown

/-- `Err.Cause`: the root frame (index 0) as an error value, nil
(`none`) when the stack is empty. -/
def Err.Cause (e : Err) : Option GoErr :=
  e.errs.head?

/-- `Err.Error`: the most recent frame's `Error()`, `""` when empty. -/
def Err.Error (e : Err) : String :=
  match e.errs.getLast? with
  | some f => f.errorStr
  | none => ""

/-- `Err.Msg`: the most recent frame's stored message, `""` when empty. -/
def Err.Msg (e : Err) : String :=
  match e.errs.getLast? with
  | some f => f.msgOf
  | none => ""

/-- `Err.Detail`: when the stack is non-empty and the top code is
registered, the registered internal text, or the stack's `Error()` when
that text is empty; in every other case (empty stack, or top code not
registered) the empty string. -/
def Err.Detail (reg : Registry) (e : Err) : String :=
  if 0 < e.errs.length then
    match reg e.Code with
    | some code => if code.Detail ≠ "" then code.Detail else e.Error
    | none => ""
  else ""

/-- `Err.HTTPStatus`: the registered status of the top frame's code, or
200 when the stack is empty or the code is unregistered. -/
def Err.HTTPStatus (reg : Registry) (e : Err) :=
  match e.errs.getLast? with
  | some f =>
    match reg f.codeOf with
    | some code => code.HTTPStatus
    | none => (200 : Int)
  | none => (200 : Int)

/-- Substitute `Coder` used by the renderer when a frame's code is not
registered: both texts fall back to the frame's raw `Error()` string
(`ErrCode{Int: err.Error(), Ext: err.Error()}` in `Format`). -/
def lookupOrRaw (reg : Registry) (f : GoErr) : ErrCode :=
  match reg f.codeOf with
  | some code => code
  | none => { Ext := f.errorStr, HTTP := 0, Int := f.errorStr }

/-- The renderer's per-frame internal (detail) text `errMsgInt`:
the registered internal text when non-empty, else the frame's raw
`Error()` text, followed by the code. -/
def errMsgInt (reg : Registry) (f : GoErr) : String :=
  let code := lookupOrRaw reg f
  if code.Detail ≠ "" then code.Detail ++ " (code:" ++ toString f.codeOf ++ ")"
  else f.errorStr ++ " (code:" ++ toString f.codeOf ++ ")"

/-- The renderer's per-frame external (user-facing) text `errMsgExt`:
the registered external text when non-empty, else the frame's raw
`Error()` text, followed by the code. -/
def errMsgExt (reg : Registry) (f : GoErr) : String :=
  let code := lookupOrRaw reg f
  if code.String ≠ "" then code.String ++ " (code:" ++ toString f.codeOf ++ ")"
  else f.errorStr ++ " (code:" ++ toString f.codeOf ++ ")"

/-- `New`: a single-frame stack whose frame carries a `fmt.Errorf`
cause, the capture-time caller, the given code, the eagerly formatted
message and the full capture-time call chain. -/
def New (code : Int) (msg : String) (data : List String) : Err :=
  ⟨[.msg (some (.foreign (sprintf msg data))) getCaller code (sprintf msg data) getTrace]⟩

/-- `From`: converts an error into a stack.  For a `*Err` the code
reads the interface element `e.errs[len(e.errs)-1]` with no emptiness
guard, so a pointer to an empty stack faults on the out-of-range index
(`none` in the model); on a non-empty `*Err` it calls `SetCode` there,
but `Msg.SetCode` has a value receiver and its returned copy is
discarded, so the stack is in fact returned unchanged.  For any other
non-nil error a fresh one-frame stack is built with the given code and
`err.Error()` as message.  For a nil error the `err.Error()` call
dereferences a nil interface — a fault, modelled as `none`. -/
def From (code : Int) (err : Option GoErr) : Option Err :=
  match err with
  | none => none
  | some (.stackPtr []) => none
  | some (.stackPtr fs) => some ⟨fs⟩
  | some e => some ⟨[.msg (some e) getCaller code e.errorStr []]⟩

/-- `Wrap`: the central composition primitive.  A nil input delegates to
`New (code, msg)` — note the variadic `data` is NOT forwarded on that
path.  A `*Err` input has its frames copied in order; a `Msg` input
becomes frame 0; any other error becomes a synthetic code-0 root frame
built from `err.Error()`.  One new frame with the given code and the
formatted message is then appended. -/
def Wrap (err : Option GoErr) (code : Int) (msg : String) (data : List String) : Err :=
  match err with
  | none => New code msg []
  | some e =>
    let base : Err :=
      match e with
      | .stackPtr fs => Err.Push ⟨[]⟩ fs
      | .msg a b c m t => Err.Push ⟨[]⟩ [.msg a b c m t]
      | other => ⟨[.msg (some other) getCaller 0 other.errorStr []]⟩
    base.Push [.msg (some (.foreign (sprintf msg data))) getCaller code (sprintf msg data) []]

/-- `Err.With`: attaches an extra error without changing the leading
cause.  A nil extra is a no-op.  On an empty stack a single code-0 frame
holding the extra is pushed.  Otherwise the top frame is popped, the
truncated stack is extended according to the extra's dynamic type —
a value `Err` is spliced behind a code-0 connector frame; a `Msg` is
pushed behind a code-0 connector whose stored message is the truncated
stack's `Error()`; anything else (including a `*Err` pointer, which the
`e.(Err)` assertion does not match) becomes one code-0 frame holding the
extra and the new formatted message — and the popped top frame is pushed
back on top. -/
def Err.With (err : Err) (e : Option GoErr) (msg : String) (data : List String) : Err :=
  match e with
  | none => err
  | some e =>
    if err.errs.length = 0 then
      err.Push [.msg (some e) getCaller 0 (sprintf msg data) []]
    else
      let top := err.errs.getLastD (.foreign "")
      let rest : Err := ⟨err.errs.dropLast⟩
      let res : Err :=
        match e with
        | .stackVal fs =>
          (rest.Push [.msg (some (.foreign (sprintf msg data))) getCaller 0 (sprintf msg data) []]).Push fs
        | .msg a b c m t =>
          rest.Push [.msg (some (.foreign (sprintf msg data))) getCaller 0 rest.Error [],
            .msg a b c m t]
        | other =>
          rest.Push [.msg (some other) getCaller 0 (sprintf msg data) []]
      res.Push [top]

/-- `Err.String` / the default `%v` render: `Format` computes
`errMsgExt` for the top frame and prints it with `Fprintf(state,
errMsgExt)` (so the text is itself reprocessed as a format string);
an empty stack renders as the trimmed empty buffer, `""`.  Declared
after the other stack operations because its name shadows the
`String` type inside the `Err` namespace. -/
def Err.String (reg : Registry) (e : Err) :=
  match e.errs.getLast? with
  | some f => sprintf (errMsgExt reg f) []
  | none => ""

/-- `readConfig` from the example surface: wraps the raw error
`read: end of input` at code `ErrUnknown`. -/
def readConfigErr : Err :=
  Wrap (some (.foreign "read: end of input")) ErrUnknown "could not read configuration file" []

/-- `decodeConfig` from the example surface: wraps `readConfig`'s stack
(a `*Err`) at code `ErrInvalidJSON`. -/
def decodeConfigErr : Err :=
  Wrap (some (.stackPtr readConfigErr.errs)) ErrInvalidJSON "could not decode configuration data" []

/-- `loadConfig` from the example surface: wraps `decodeConfig`'s stack
at the caller-registered code `ConfigurationNotValid` (1000). -/
def loadConfigErr : Err :=
  Wrap (some (.stackPtr decodeConfigErr.errs)) ConfigurationNotValid
    "service configuration could not be loaded" []

/-- Modelled from the spec's words for claim C3, to be compared with
`Err.With`: pop the current top frame, push a code-0 connector frame
carrying the new formatted message, splice in the extra's frames (all
frames when the extra is an error stack, the single frame when it is a
frame value, one synthetic frame otherwise), then push the popped top
frame back on top. -/
def WithSpec (err : Err) (e : GoErr) (msg : String) (data : List String) : Err :=
  let top := err.errs.getLastD (.foreign "")
  let rest := err.errs.dropLast
  let connector : GoErr :=
    .msg (some (.foreign (sprintf msg data))) getCaller 0 (sprintf msg data) []
  let spliced : List GoErr :=
    match e with
    | .stackPtr fs => fs
    | .stackVal fs => fs
    | .msg a b c m t => [.msg a b c m t]
    | .foreign s => [.msg (some (.foreign s)) getCaller 0 s []]
  ⟨rest ++ connector :: (spliced ++ [top])⟩

/-- The amended C3 algorithm as an independent splice form: on a
non-empty stack, pop the top frame; for a value-typed error stack push
a code-0 connector carrying the new formatted message followed by all
its frames; for a single frame value push a code-0 connector whose
stored message is the truncated stack's `Error()` text, followed by
that frame; for any other extra (a `*Err` pointer stack included) push
exactly one code-0 frame holding the extra as its cause and the new
formatted message as its stored message; finally push the original top
frame back. -/
def WithAmended (err : Err) (e : GoErr) (msg : String) (data : List String) : Err :=
  let top := err.errs.getLastD (.foreign "")
  let rest := err.errs.dropLast
  let middle : List GoErr :=
    match e with
    | .stackVal fs =>
      .msg (some (.foreign (sprintf msg data))) getCaller 0 (sprintf msg data) [] :: fs
    | .msg a b c m t =>
      [.msg (some (.foreign (sprintf msg data))) getCaller 0 (Err.Error ⟨rest⟩) [],
        .msg a b c m t]
    | other => [.msg (some other) getCaller 0 (sprintf msg data) []]
  ⟨rest ++ middle ++ [top]⟩

/-- C1: for every error stack with at least one frame and every code
and message, wrapping copies the existing frames in order before
appending the new frame, so the root cause (`Cause`, the first frame)
is unchanged: `Cause (Wrap s c m) = Cause s`. -/
theorem wrap_preserves_cause (s : Err) (h : s.errs ≠ []) (c : Int) (m : String)
    (d : List String) :
    (Wrap (some (.stackPtr s.errs)) c m d).Cause = s.Cause := by
  cases s with
  | mk errs =>
    cases errs with
    | nil => exact absurd rfl h
    | cons a t => simp [Wrap, Err.Push, Err.Cause]

/-- Witness for C1 at a concrete one-frame stack. -/
theorem wrap_preserves_cause_witness :
    ((Err.mk [.msg none getCaller 7 "root" []]).errs ≠ []) ∧
    (Wrap (some (.stackPtr (Err.mk [.msg none getCaller 7 "root" []]).errs)) 9 "w" []).Cause
      = (Err.mk [.msg none getCaller 7 "root" []]).Cause :=
  ⟨by simp, wrap_preserves_cause ⟨[.msg none getCaller 7 "root" []]⟩ (by simp) 9 "w" []⟩

/-- C2: Wrap's length postcondition: wrapping nil yields a one-frame
stack, wrapping a stack of length k yields k + 1 frames, and wrapping a
foreign (non-stack, non-frame) error yields two frames whose root is a
synthetic code-0 frame built from the foreign error's text. -/
theorem wrap_len (c : Int) (m : String) (d : List String) :
    (Wrap none c m d).Len = 1 ∧
    (∀ s : Err, (Wrap (some (.stackPtr s.errs)) c m d).Len = s.Len + 1) ∧
    (∀ str : String, (Wrap (some (.foreign str)) c m d).Len = 2 ∧
      (Wrap (some (.foreign str)) c m d).errs.head?
        = some (.msg (some (.foreign str)) getCaller 0 str [])) := by
  refine ⟨rfl, fun s => ?_, fun str => ⟨rfl, rfl⟩⟩
  simp [Wrap, Err.Push, Err.Len]

/-- C3 counterexample: attaching a foreign error to a one-frame stack
pushes a single code-0 frame (which itself carries the extra and the
new message), not a connector frame plus a separate synthetic frame as
the claim describes, so `Err.With` differs from the claimed algorithm
`WithSpec` already at this input (two frames against three). -/
theorem with_claimed_splice_false :
    Err.With ⟨[.msg none getCaller 5 "top" []]⟩ (some (.foreign "x")) "m" []
      ≠ WithSpec ⟨[.msg none getCaller 5 "top" []]⟩ (.foreign "x") "m" [] := by
  intro hcontra
  have hlen := congrArg (fun t => t.errs.length) hcontra
  simp [Err.With, WithSpec, Err.Push] at hlen

/-- C3 amended: on a non-empty stack `With` pops the top frame, extends
the truncated stack according to the extra's dynamic type (value stack:
connector plus all frames; frame value: connector carrying the
truncated stack's `Error()` text plus that frame; anything else,
pointer stacks included: exactly one code-0 frame holding the extra and
the new message), and pushes the original top frame back. -/
theorem with_matches_amended (s : Err) (h : s.errs ≠ []) (e : GoErr) (m : String)
    (d : List String) :
    s.With (some e) m d = WithAmended s e m d := by
  have hlen : ¬ s.errs.length = 0 := by simp [List.length_eq_zero, h]
  cases e <;> simp [Err.With, WithAmended, Err.Push, hlen]

/-- Witness for the amended C3 at a concrete stack and foreign extra. -/
theorem with_matches_amended_witness :
    ((Err.mk [.msg none getCaller 5 "top" []]).errs ≠ []) ∧
    Err.With ⟨[.msg none getCaller 5 "top" []]⟩ (some (.foreign "x")) "m" []
      = WithAmended ⟨[.msg none getCaller 5 "top" []]⟩ (.foreign "x") "m" [] :=
  ⟨by simp, with_matches_amended ⟨[.msg none getCaller 5 "top" []]⟩ (by simp)
    (.foreign "x") "m" []⟩

/-- C4 counterexample: on an initially empty stack `With` pushes a
code-0 frame, so `Code` changes from `ErrUnknown` (the empty-stack
default, 1) to 0 — the claimed invariant fails for the empty stack. -/
theorem with_code_on_empty_stack_false :
    ¬ (Err.With ⟨[]⟩ (some (.foreign "x")) "m" []).Code = (Err.mk []).Code := by
  decide

/-- Pushing a single frame makes it the stack's most recent frame. -/
theorem getLast?_push_last (e : Err) (f : GoErr) :
    (e.Push [f]).errs.getLast? = some f := by
  simp [Err.Push, List.getLast?_concat]

/-- C4 amended: for every NON-EMPTY stack and non-nil extra, `With`
re-pushes the popped top frame last, so the top-of-stack classification
`Code` is unchanged. -/
theorem with_preserves_code_nonempty (s : Err) (h : s.errs ≠ []) (e : GoErr)
    (m : String) (d : List String) :
    (s.With (some e) m d).Code = s.Code := by
  have hlen : ¬ s.errs.length = 0 := by simp [List.length_eq_zero, h]
  obtain ⟨f, hf⟩ : ∃ f, s.errs.getLast? = some f := by
    cases hx : s.errs.getLast? with
    | some f => exact ⟨f, rfl⟩
    | none => exact absurd (List.getLast?_eq_none_iff.mp hx) h
  simp [Err.With, hlen, Err.Code, getLast?_push_last, List.getLastD_eq_getLast?, hf]

/-- Witness for the amended C4 at a concrete one-frame stack. -/
theorem with_preserves_code_nonempty_witness :
    ((Err.mk [.msg none getCaller 7 "top" []]).errs ≠ []) ∧
    (Err.With ⟨[.msg none getCaller 7 "top" []]⟩ (some (.foreign "x")) "m" []).Code
      = (Err.mk [.msg none getCaller 7 "top" []]).Code :=
  ⟨by simp, with_preserves_code_nonempty ⟨[.msg none getCaller 7 "top" []]⟩ (by simp)
    (.foreign "x") "m" []⟩

/-- C5 counterexample: on a zero-frame stack `Code` returns
`ErrUnknown` (1), not the success code 0, and `Last` reads index
`len-1 = -1` without a guard — an out-of-range fault, `none` in the
model — so two of the claimed empty-stack behaviours fail. -/
theorem empty_stack_claim_false :
    (Err.mk []).Code ≠ ErrSuccess ∧ (Err.mk []).Last? = none :=
  ⟨by decide, rfl⟩

/-- C5 amended: on a zero-frame stack the guarded accessors return
zero-value results — `Msg`, `Error` and `Detail` the empty string,
`Cause` nil, `HTTPStatus` 200 — but `Code` returns `ErrUnknown` (1)
rather than the success code, and `Last` faults (out-of-range index)
rather than returning a zero value. -/
theorem empty_stack_accessors :
    (Err.mk []).Code = ErrUnknown ∧
    (Err.mk []).Msg = "" ∧
    (Err.mk []).Error = "" ∧
    (∀ reg : Registry, Err.Detail reg ⟨[]⟩ = "") ∧
    (Err.mk []).Cause = none ∧
    (∀ reg : Registry, Err.HTTPStatus reg ⟨[]⟩ = 200) ∧
    (Err.mk []).Last? = none :=
  ⟨rfl, rfl, rfl, fun _ => rfl, rfl, fun _ => rfl, rfl⟩

/-- C6: the claim is right and the code has a slip: on the nil path
`Wrap` calls `New(code, msg)` without forwarding the variadic
arguments, so the template is formatted with no arguments; with
`msg = "value %s"` and one argument the resulting message is
`value %!s(MISSING)` where `New` applied to the same inputs formats
`value x`. -/
theorem wrap_nil_drops_args :
    Wrap none ErrUnknown "value %s" ["x"] = New ErrUnknown "value %s" [] ∧
    (Wrap none ErrUnknown "value %s" ["x"]).Msg = "value %!s(MISSING)" ∧
    (New ErrUnknown "value %s" ["x"]).Msg = "value x" :=
  ⟨rfl, rfl, rfl⟩

/-- C7 counterexample: with the package's own registry and a top frame
carrying the unregistered code 999 and raw message "boom", `Detail`
returns the empty string, not the frame's raw error message. -/
theorem detail_unregistered_not_raw :
    Err.Detail initCodes ⟨[.msg none getCaller 999 "boom" []]⟩ = "" ∧
    Err.Error ⟨[.msg none getCaller 999 "boom" []]⟩ = "boom" ∧
    Err.Detail initCodes ⟨[.msg none getCaller 999 "boom" []]⟩
      ≠ Err.Error ⟨[.msg none getCaller 999 "boom" []]⟩ := by
  refine ⟨rfl, rfl, ?_⟩
  decide

/-- C7 amended: when the top frame's code is not registered, `Detail()`
returns the empty string; the fallback to the frame's raw error message
happens in the renderer, whose per-frame detail and external texts both
become the raw `Error()` text followed by the code (and so are never
empty), without faulting. -/
theorem detail_unregistered_amended (s : Err) (reg : Registry) (f : GoErr)
    (h : s.errs.getLast? = some f) (hreg : reg f.codeOf = none) :
    Err.Detail reg s = "" ∧
    errMsgInt reg f = f.errorStr ++ " (code:" ++ toString f.codeOf ++ ")" ∧
    errMsgExt reg f = f.errorStr ++ " (code:" ++ toString f.codeOf ++ ")" := by
  have hlen : 0 < s.errs.length := by
    rcases List.getLast?_eq_some_iff.mp h with ⟨ys, hys⟩
    simp [hys]
  have hcode : s.Code = f.codeOf := by simp [Err.Code, h]
  refine ⟨?_, ?_, ?_⟩
  · simp [Err.Detail, hlen, hcode, hreg]
  · simp [errMsgInt, lookupOrRaw, hreg, ErrCode.Detail]
  · simp [errMsgExt, lookupOrRaw, hreg, ErrCode.String]

/-- Witness for the amended C7 at the unregistered code 999. -/
theorem detail_unregistered_amended_witness :
    initCodes (GoErr.codeOf (.msg none getCaller 999 "boom" [])) = none ∧
    Err.Detail initCodes ⟨[.msg none getCaller 999 "boom" []]⟩ = "" :=
  ⟨by decide,
    (detail_unregistered_amended ⟨[.msg none getCaller 999 "boom" []]⟩ initCodes
      (.msg none getCaller 999 "boom" []) rfl (by decide)).1⟩

/-- C8 counterexample: the configuration scenario produces a four-frame
stack — `readConfig` wraps a foreign error (two frames), and the two
further wraps each add one — not the three frames the claim states. -/
theorem load_config_len_not_three :
    loadConfigErr.Len = 4 ∧ loadConfigErr.Len ≠ 3 := by
  refine ⟨rfl, ?_⟩
  decide

/-- C8 amended: in the configuration scenario the final code is 1000,
the root cause's text is the raw read error, the default render is the
registered external text of code 1000, and the stack has FOUR frames
(synthetic root, read, decode, load). -/
theorem load_config_scenario :
    loadConfigErr.Code = ConfigurationNotValid ∧
    loadConfigErr.Cause.map GoErr.errorStr = some "read: end of input" ∧
    loadConfigErr.Len = 4 ∧
    Err.String codesTest loadConfigErr = "Configuration not valid (code:1000)" :=
  ⟨rfl, rfl, rfl, rfl⟩

/-- C10 counterexample: a pointer to an empty stack is a non-nil error
value on which `From` faults (the unguarded `errs[len-1]` index), so
the claim that every non-nil input returns a stack without faulting is
false at this input. -/
theorem from_empty_stack_faults :
    From 5 (some (.stackPtr [])) = none ∧
    (From 5 (some (.stackPtr []))).isSome = false :=
  ⟨rfl, rfl⟩

/-- C10 amended: `From` applied to a nil error reaches `err.Error()` on
the nil interface and faults (`none` in the model), unlike `Wrap`,
which maps nil to a fresh one-frame stack; `From` also faults on a
pointer to an empty stack (unguarded `errs[len-1]` index); on every
other non-nil input `From` returns a stack without faulting. -/
theorem from_nil_faults (c : Int) (e : GoErr) (h : e ≠ .stackPtr []) :
    From c none = none ∧
    From c (some (.stackPtr [])) = none ∧
    (From c (some e)).isSome = true ∧
    (∀ m : String, (Wrap none c m []).Len = 1) := by
  refine ⟨rfl, rfl, ?_, fun m => rfl⟩
  cases e with
  | foreign s => rfl
  | msg a b c2 m t => rfl
  | stackVal fs => rfl
  | stackPtr fs =>
    cases fs with
    | nil => exact absurd rfl h
    | cons a t => rfl

/-- Witness for the amended C10 at a concrete foreign error. -/
theorem from_nil_faults_witness :
    (GoErr.foreign "boom" ≠ GoErr.stackPtr []) ∧
    (From 5 (some (.foreign "boom"))).isSome = true :=
  ⟨fun hh => GoErr.noConfusion hh,
    (from_nil_faults 5 (.foreign "boom") (fun hh => GoErr.noConfusion hh)).2.2.1⟩
